import Mathlib

/-!
Verification development for the Emergence pre-registration scripts
(`scripts/pre-register.py` and `scripts/compare-run.py`).

The Python scripts are shallowly embedded: pure computations become Lean
functions, JSON values become an inductive `Json` type, the effectful
`main` flows become trace-producing functions over an explicit
environment/world, and PostgreSQL aggregate queries become list
computations over an explicit table model.
-/

set_option maxRecDepth 10000

namespace Emergence

/-- A model of parsed JSON values as produced by Python `json.loads`.
Numbers are modelled as integers (the scripts only manipulate integral
configuration values and counts); object fields are kept in encounter
order, mirroring Python dict insertion order. -/
inductive Json where
  | null : Json
  | bool : Bool → Json
  | num : Int → Json
  | str : String → Json
  | arr : List Json → Json
  | obj : List (String × Json) → Json

namespace Json

/-- Python `isinstance(j, dict)`. -/
def isObj : Json → Bool
  | .obj _ => true
  | _ => false

/-- Python `d.get(k)` on an object: the first value bound to `k`, if any. -/
def get? (j : Json) (k : String) : Option Json :=
  match j with
  | .obj kvs => (kvs.find? (fun kv => kv.1 == k)).map (fun kv => kv.2)
  | _ => none

/-- Python `d.get(k, default)`. -/
def getD (j : Json) (k : String) (d : Json) : Json := (j.get? k).getD d

/-- Python truthiness of a JSON value (`if x:`). -/
def truthy : Json → Bool
  | .null => false
  | .bool b => b
  | .num n => n ≠ 0
  | .str s => s ≠ ""
  | .arr l => ¬ l.isEmpty
  | .obj kvs => ¬ kvs.isEmpty

/-- Python `str()` of a JSON scalar as it appears in an f-string. -/
def pyStr : Json → String
  | .null => "None"
  | .bool b => if b then "True" else "False"
  | .num n => toString n
  | .str s => s
  | .arr _ => "[...]"
  | .obj _ => "\x7b...\x7d"

end Json

/-! ## Question catalog (`pre-register.py`, `RESEARCH_QUESTIONS`, lines 55-146) -/

structure ResearchQuestion where
  id : String
  category : String
  min_agents : Nat
  question : String
deriving DecidableEq, Repr

/-- The fixed catalog `RESEARCH_QUESTIONS` from `scripts/pre-register.py`
lines 55-146, in source order. -/
def RESEARCH_QUESTIONS : List ResearchQuestion :=
  [ { id := "social_coordination", category := "Social Organization", min_agents := 5,
      question := "How do coordination patterns form and restructure? When agents need to solve collective problems (resource scarcity, defense), what organizational structures arise? How stable are they?" }
  , { id := "social_stratification", category := "Social Organization", min_agents := 5,
      question := "How does social stratification develop? When agents differ in personality, skill, and accumulated resources, how does hierarchy form? Is it contested?" }
  , { id := "leadership", category := "Social Organization", min_agents := 5,
      question := "How do agents handle leadership? Does authority centralize around individuals? Is it stable or contested? What triggers leadership transitions?" }
  , { id := "exchange_networks", category := "Economic Dynamics", min_agents := 5,
      question := "How do exchange networks form and restructure? Starting from no trade infrastructure, how do agents discover exchange? How do trade relationships stabilize or shift?" }
  , { id := "resource_inequality", category := "Economic Dynamics", min_agents := 5,
      question := "How does resource inequality develop over time? Does wealth concentrate? At what rate? Does it self-correct or compound?" }
  , { id := "scarcity_response", category := "Economic Dynamics", min_agents := 5,
      question := "How do agents respond to scarcity? Cooperation, hoarding, conflict, migration, innovation? How do responses change as scarcity intensifies?" }
  , { id := "shared_practices", category := "Cultural & Social Practices", min_agents := 10,
      question := "How do shared practices and norms form? Do agents develop conventions, rituals, or behavioral norms? How do they spread?" }
  , { id := "bonding_structures", category := "Cultural & Social Practices", min_agents := 10,
      question := "How do bonding and family structures develop? Monogamy, communal arrangements, or something else? How do reproduction decisions interact with resource availability?" }
  , { id := "deception", category := "Cultural & Social Practices", min_agents := 10,
      question := "How does deception operate in agent societies? When do agents lie? To whom? How do other agents respond when deception is discovered?" }
  , { id := "disruption_response", category := "Response to Disruption", min_agents := 10,
      question := "How do agent societies respond to exogenous shocks? Resource depletion, environmental change, population loss. Does the social structure adapt, collapse, or reorganize?" }
  , { id := "personality_effects", category := "Response to Disruption", min_agents := 10,
      question := "How do different personality distributions produce different outcomes? Does initial personality distribution determine long-term social structure, or do the dynamics converge?" }
  , { id := "convergence_divergence", category := "Meta", min_agents := 5,
      question := "Where do agent trajectories converge with human historical patterns, and where do they diverge?" }
  , { id := "automation_threshold", category := "Meta", min_agents := 5,
      question := "What percentage of decisions can be automated without losing behavioral complexity?" }
  , { id := "novel_behaviors", category := "Meta", min_agents := 5,
      question := "Do agents produce genuinely novel behaviors that were not anticipated by the system designers?" }
  , { id := "feasibility", category := "Meta", min_agents := 5,
      question := "Can a 24-hour bounded run at the given agent count produce observable social dynamics worth analyzing?" }
  ]

/-- The applicability filter of `pre-register.py` `main`, lines 415-417:
`[q for q in RESEARCH_QUESTIONS if q["min_agents"] <= args.agents]`. -/
def applicable_questions (agents : Nat) : List ResearchQuestion :=
  RESEARCH_QUESTIONS.filter (fun q => q.min_agents ≤ agents)

/-! ## Registration response normalizer (`pre-register.py`, `query_llm`, lines 288-304)

The normalizer operates on the value produced by `json.loads(content)`;
a `json.JSONDecodeError` (raw text not parseable at all) happens before
this stage and aborts with the raw text echoed — that stage is not part
of the shape normalization modelled here. -/

/-- The error of the shape-dispatch stage. The Python code prints
"Unexpected JSON structure from LLM: <type>" (the Python type name, not
the raw response text) and exits. -/
inductive NormError where
  | unexpectedStructure (typeName : String) : NormError
deriving DecidableEq, Repr

/-- Python type name of a parsed JSON value, as printed in the error. -/
def pyTypeName : Json → String
  | .null => "NoneType"
  | .bool _ => "bool"
  | .num _ => "int"
  | .str _ => "str"
  | .arr _ => "list"
  | .obj _ => "dict"

/-- The shape normalization of `query_llm` in `pre-register.py`
(lines 291-300), applied to the parsed JSON value:
  * a bare list becomes `{"predictions": parsed}`;
  * a dict containing a `"predictions"` key is returned as is;
  * a dict whose values are all dicts becomes
    `{"predictions": list(parsed.values())}`;
  * any other dict becomes `{"predictions": [parsed]}` (one-element wrap);
  * every non-list, non-dict value is a fatal error naming its type. -/
def normalize_response (parsed : Json) : Except NormError Json :=
  match parsed with
  | .arr l => .ok (.obj [("predictions", .arr l)])
  | .obj kvs =>
      if kvs.any (fun kv => kv.1 == "predictions") then .ok (.obj kvs)
      else if kvs.all (fun kv => kv.2.isObj) then
        .ok (.obj [("predictions", .arr (kvs.map (fun kv => kv.2)))])
      else .ok (.obj [("predictions", .arr [.obj kvs])])
  | other => .error (.unexpectedStructure (pyTypeName other))

/-- The prediction sequence the caller reads off the normalized result
(`result.get("predictions", [])` in `main`, line 457). -/
def normalized_predictions (r : Json) : List Json :=
  match r.getD "predictions" (.arr []) with
  | .arr l => l
  | other => [other]

/-! ## Report renderer pieces (`compare-run.py`, `generate_markdown_report`)

The relevant sections of the markdown report are embedded
compositionally: each section is one Lean function producing exactly the
string the Python code appends to `report`. -/

/-- One row of the discovery timeline as extracted (`compare-run.py`
lines 136-144): `{"knowledge", "tick", "method", "agent_id"}`. -/
structure DiscoveryOut where
  knowledge : String
  tick : Int
  method : String
  agent_id : Option String
deriving DecidableEq, Repr

/-- One rendered row of the discovery timeline table
(`compare-run.py` line 385). -/
def discovery_row (d : DiscoveryOut) : String :=
  "| " ++ toString d.tick ++ " | " ++ d.knowledge ++ " | " ++ d.method ++ " |\n"

/-- The rows actually rendered: `discoveries[:30]` (line 384). -/
def timeline_rows (ds : List DiscoveryOut) : List DiscoveryOut := ds.take 30

/-- The truncation footnote (lines 386-387): emitted only when more than
30 discoveries exist, naming how many were omitted. -/
def timeline_footnote (ds : List DiscoveryOut) : String :=
  if ds.length > 30 then
    "\n*...and " ++ toString (ds.length - 30) ++ " more discoveries.*\n"
  else ""

/-- The full discovery-timeline section (`compare-run.py` lines 379-388):
absent entirely when there are no discoveries, otherwise header, at most
30 rows, optional footnote, trailing blank line. -/
def discovery_timeline_section (ds : List DiscoveryOut) : String :=
  if ds.isEmpty then ""
  else
    "## Discovery Timeline\n\n| Tick | Knowledge | Method |\n|---|---|---|\n"
      ++ String.join ((timeline_rows ds).map discovery_row)
      ++ timeline_footnote ds ++ "\n"

/-- Python `c.get("verdict", "unknown")` for a comparison object,
rendered to the string used as the tally key (line 408). -/
def get_verdict (c : Json) : String :=
  match c.getD "verdict" (.str "unknown") with
  | .str s => s
  | other => other.pyStr

/-- One step of the tally loop (line 409):
`verdict_counts[v] = verdict_counts.get(v, 0) + 1` on a Python dict,
which preserves first-encounter key order. -/
def bump : List (String × Nat) → String → List (String × Nat)
  | [], v => [(v, 1)]
  | (k, n) :: rest, v =>
      if k = v then (k, n + 1) :: rest else (k, n) :: bump rest v

/-- The tally dict after the loop over all comparisons (lines 406-409). -/
def verdict_counts (cs : List Json) : List (String × Nat) :=
  cs.foldl (fun acc c => bump acc (get_verdict c)) []

/-- Python string comparison (`<=`) on code points, lexicographic. -/
def charListLe : List Char → List Char → Bool
  | [], _ => true
  | _ :: _, [] => false
  | a :: as, b :: bs => if a = b then charListLe as bs else decide (a < b)

/-- Python `a <= b` on strings. -/
def strLe (a b : String) : Bool := charListLe a.data b.data

/-- Python `sorted(verdict_counts.items())` (line 414): rows sorted by key in
Python string order (keys are unique, so sorting the pairs sorts by
verdict name; Python sorting is stable). -/
def verdict_rows (cs : List Json) : List (String × Nat) :=
  List.insertionSort (fun a b => strLe a.1 b.1 = true) (verdict_counts cs)

/-- The rendered verdict summary section (lines 411-416). -/
def verdict_summary_section (cs : List Json) : String :=
  "### Verdict Summary\n\n| Verdict | Count |\n|---|---|\n"
    ++ String.join ((verdict_rows cs).map
        (fun vc => "| " ++ vc.1 ++ " | " ++ toString vc.2 ++ " |\n"))
    ++ "\n"

/-! ## Outcome extractor (`compare-run.py`, `extract_run_outcomes`, lines 69-214)

The PostgreSQL tables the extractor reads are modelled as explicit lists
of rows; each SQL aggregate query becomes the corresponding list
computation. `Option` models SQL NULL for nullable columns and for
aggregates (`AVG`, `MIN`, `MAX`) over empty qualifying sets. An `Option`
field of the resulting snapshot that is `none` where the Python code
conditionally omits a dict key models the absent key. -/

structure RunRow where
  id : String
  name : String
  status : String
  max_ticks : Option Int
deriving DecidableEq, Repr

structure AgentRow where
  born_at_tick : Int
  died_at_tick : Option Int
  parent_a : Option String
  generation : Int
  cause_of_death : Option String
deriving DecidableEq, Repr

structure EventRow where
  event_type : String
  tick : Int
  agent_id : String
deriving DecidableEq, Repr

structure DiscoveryRow where
  knowledge_item : String
  tick : Int
  method : String
  agent_id : Option String
deriving DecidableEq, Repr

structure ConstructRow where
  name : String
  category : String
  founded_at_tick : Int
  disbanded_at_tick : Option Int
deriving DecidableEq, Repr

structure DeceptionRow where
  deceiver : String
  discovered : Bool
deriving DecidableEq, Repr

structure SnapshotRow where
  tick : Int
  total_resources : Int
deriving DecidableEq, Repr

structure LedgerRow where
  entry_type : String
  quantity : Int
deriving DecidableEq, Repr

/-- The portion of the simulation database the extractor reads. -/
structure Db where
  simulation_runs : List RunRow
  agents : List AgentRow
  events : List EventRow
  discoveries : List DiscoveryRow
  social_constructs : List ConstructRow
  deception_records : List DeceptionRow
  world_snapshots : List SnapshotRow
  ledger : List LedgerRow
deriving Repr

/-- Row `outcomes["run"]` (lines 84-89). -/
structure RunInfo where
  id : String
  name : String
  status : String
  max_ticks : Option Int
deriving DecidableEq, Repr

/-- Row `outcomes["population"]` (lines 92-104): one SQL aggregate row. -/
structure PopulationStats where
  total_agents : Nat
  alive_at_end : Nat
  total_deaths : Nat
  born_in_sim : Nat
  seed_agents : Nat
  max_generation : Option Int
  avg_lifespan : Option Rat
deriving DecidableEq, Repr

/-- Row `outcomes["trade"]` (lines 117-127). -/
structure TradeStats where
  total_trades : Nat
  unique_traders : Nat
  first_trade_tick : Option Int
  last_trade_tick : Option Int
deriving DecidableEq, Repr

/-- Row `outcomes["deception"]` (lines 155-163). -/
structure DeceptionStats where
  total_lies : Nat
  discovered_lies : Nat
  unique_deceivers : Nat
deriving DecidableEq, Repr

/-- Row `outcomes["final_world_state"]` (lines 174-177). -/
structure FinalWorldState where
  tick : Int
  total_resources : Int
deriving DecidableEq, Repr

/-- Row `outcomes["conflict"]` (lines 180-188). -/
structure ConflictStats where
  combat_events : Nat
  theft_events : Nat
  diplomacy_events : Nat
deriving DecidableEq, Repr

/-- One row of `outcomes["ledger_summary"]` (lines 191-197). -/
structure LedgerBucket where
  entry_type : String
  count : Nat
  total_quantity : Int
deriving DecidableEq, Repr

/-- Row `outcomes["tick_range"]` (lines 209-211). -/
structure TickRange where
  first_tick : Option Int
  last_tick : Option Int
deriving DecidableEq, Repr

/-- The assembled `outcomes` dict. `final_world_state := none` models the
key being absent from the Python dict (it is only set when a world
snapshot row exists, lines 173-177); every other field is always set. -/
structure Outcomes where
  run : RunInfo
  population : PopulationStats
  death_causes : List (String × Nat)
  trade : TradeStats
  discoveries : List DiscoveryOut
  social_constructs : List ConstructRow
  deception : DeceptionStats
  final_world_state : Option FinalWorldState
  conflict : ConflictStats
  ledger_summary : List LedgerBucket
  event_distribution : List (String × Nat)
  tick_range : TickRange
deriving DecidableEq, Repr

/-- SQL `AVG` over the non-NULL values: NULL (none) on an empty set. -/
def sqlAvg (l : List Int) : Option Rat :=
  if l.isEmpty then none else some ((l.sum : Rat) / (l.length : Rat))

/-- SQL `GROUP BY key` with `COUNT(*)`, groups in first-encounter order
(final order is imposed separately by `ORDER BY`). -/
def group_counts (keys : List String) : List (String × Nat) :=
  keys.foldl bump []

/-- SQL `ORDER BY count DESC` on counted groups (ties keep group order,
matching a stable sort; PostgreSQL leaves tie order unspecified). -/
def sort_count_desc (l : List (String × Nat)) : List (String × Nat) :=
  List.insertionSort (fun a b => b.2 ≤ a.2) l

/-- One step of the `GROUP BY entry_type` aggregate with `COUNT(*)` and
`SUM(quantity)` (lines 191-197). -/
def ledger_bump : List LedgerBucket → LedgerRow → List LedgerBucket
  | [], r => [⟨r.entry_type, 1, r.quantity⟩]
  | b :: rest, r =>
      if b.entry_type = r.entry_type then
        ⟨b.entry_type, b.count + 1, b.total_quantity + r.quantity⟩ :: rest
      else b :: ledger_bump rest r

/-- Rows of `events` counted as trades (line 124):
`event_type = Trade OR event_type = TRADE` in either capitalization. -/
def isTrade (e : EventRow) : Bool := e.event_type == "Trade" || e.event_type == "TRADE"

/-- Function `extract_run_outcomes` (lines 69-214): run lookup fails fast when the
run id is unknown; every other sub-query aggregates over its table. -/
def extract_run_outcomes (db : Db) (run_id : String) : Except String Outcomes :=
  match db.simulation_runs.find? (fun r => r.id == run_id) with
  | none => .error ("No simulation run found with id: " ++ run_id)
  | some run =>
    let deadWithCause := db.agents.filter
      (fun a => a.died_at_tick.isSome && a.cause_of_death.isSome)
    let tradeEvents := db.events.filter isTrade
    .ok
      { run := ⟨run.id, run.name, run.status, run.max_ticks⟩
      , population :=
          { total_agents := db.agents.length
          , alive_at_end := (db.agents.filter (fun a => a.died_at_tick.isNone)).length
          , total_deaths := (db.agents.filter (fun a => a.died_at_tick.isSome)).length
          , born_in_sim := (db.agents.filter (fun a => a.parent_a.isSome)).length
          , seed_agents := (db.agents.filter (fun a => a.generation == 0)).length
          , max_generation := (db.agents.map (fun a => a.generation)).max?
          , avg_lifespan := sqlAvg (db.agents.filterMap
              (fun a => a.died_at_tick.map (fun d => d - a.born_at_tick))) }
      , death_causes := sort_count_desc (group_counts
          (deadWithCause.map (fun a => a.cause_of_death.getD "")))
      , trade :=
          { total_trades := tradeEvents.length
          , unique_traders := (tradeEvents.map (fun e => e.agent_id)).dedup.length
          , first_trade_tick := (tradeEvents.map (fun e => e.tick)).min?
          , last_trade_tick := (tradeEvents.map (fun e => e.tick)).max? }
      , discoveries :=
          (List.insertionSort (fun a b => a.tick ≤ b.tick) db.discoveries).map
            (fun r => ⟨r.knowledge_item, r.tick, r.method, r.agent_id⟩)
      , social_constructs :=
          List.insertionSort (fun a b => a.founded_at_tick ≤ b.founded_at_tick)
            db.social_constructs
      , deception :=
          { total_lies := db.deception_records.length
          , discovered_lies := (db.deception_records.filter
              (fun d => d.discovered)).length
          , unique_deceivers := (db.deception_records.map
              (fun d => d.deceiver)).dedup.length }
      , final_world_state :=
          ((List.insertionSort (fun a b => b.tick ≤ a.tick)
              db.world_snapshots).head?).map
            (fun s => ⟨s.tick, s.total_resources⟩)
      , conflict :=
          { combat_events := (db.events.filter
              (fun e => e.event_type == "Combat" || e.event_type == "COMBAT")).length
          , theft_events := (db.events.filter
              (fun e => e.event_type == "Theft" || e.event_type == "THEFT")).length
          , diplomacy_events := (db.events.filter
              (fun e => e.event_type == "Diplomacy" || e.event_type == "DIPLOMACY")).length }
      , ledger_summary :=
          List.insertionSort (fun a b => b.count ≤ a.count)
            (db.ledger.foldl ledger_bump [])
      , event_distribution := sort_count_desc (group_counts
          (db.events.map (fun e => e.event_type)))
      , tick_range :=
          { first_tick := (db.events.map (fun e => e.tick)).min?
          , last_tick := (db.events.map (fun e => e.tick)).max? } }

/-! ## Effect traces of the two `main` flows

The externally visible effects of each invocation are modelled as an
ordered trace of events; the trace functions follow the source order of
the two `main` functions (and of the helpers they call) exactly, with
the outcome of each external interaction supplied as an explicit world
parameter. `Ev.exitFatal` is `sys.exit(1)`; a trace ends at the first
fatal exit. -/

inductive Ev where
  | loadConfig : Ev
  | loadPreds : Ev
  | exitFatal : Ev
  | dbConnect : Ev
  | runLookupQuery : Ev
  | extractQueries : Ev
  | llmCall : Ev
  | writeArtifact : Ev
  | dbWrite : Ev
  | dbClose : Ev
  | warn : Ev
deriving DecidableEq, Repr

/-- The environment variables both scripts read. -/
structure Env where
  openrouter_api_key : Option String
  llm_default_api_key : Option String
  database_url : Option String
deriving DecidableEq, Repr

/-- Python truthiness of `os.environ.get(name)`: unset and empty both
count as missing (`or` / `if not`). -/
def envStr (v : Option String) : Option String :=
  v.bind (fun s => if s = "" then none else some s)

/-- Function `get_api_key` (identical in both scripts):
`os.environ.get("OPENROUTER_API_KEY") or os.environ.get("LLM_DEFAULT_API_KEY")`,
`None`/empty being a fatal error handled by the caller trace. -/
def get_api_key (env : Env) : Option String :=
  (envStr env.openrouter_api_key).orElse (fun _ => envStr env.llm_default_api_key)

/-- Outcomes of the external interactions of one `pre-register.py`
invocation. -/
structure PreRegWorld where
  config_exists : Bool
  agents : Nat
  llm_transport_ok : Bool
  llm_response_ok : Bool
  save_to_db : Bool
  db_write_ok : Bool
deriving DecidableEq, Repr

/-- Effect trace of `pre-register.py` `main` (lines 359-491), in source
order: load config (line 411), resolve API key (412), filter questions
(415-425), inference call (434), write the registration JSON (465-466),
then the optional database save (472-477) in which a missing
`DATABASE_URL` is only a warning and `save_to_db` catches every failure
as a warning (lines 318-356). -/
def pre_register_trace (env : Env) (w : PreRegWorld) : List Ev :=
  if w.config_exists then
    match get_api_key env with
    | none => [.loadConfig, .exitFatal]
    | some _ =>
      if (applicable_questions w.agents).isEmpty then [.loadConfig, .exitFatal]
      else if w.llm_transport_ok then
        if w.llm_response_ok then
          [.loadConfig, .llmCall, .writeArtifact] ++
            (if w.save_to_db then
              match envStr env.database_url with
              | none => [.warn]
              | some _ =>
                if w.db_write_ok then [.dbConnect, .dbWrite, .dbClose]
                else [.dbConnect, .warn]
            else [])
        else [.loadConfig, .llmCall, .exitFatal]
      else [.loadConfig, .llmCall, .exitFatal]
  else [.exitFatal]

/-- Outcomes of the external interactions of one `compare-run.py`
invocation. `registration_predictions` is `registration.get("predictions", [])`
(line 516); an absent `predictions` key yields the same empty list. -/
structure CompareWorld where
  preds_file_exists : Bool
  registration_predictions : List Json
  db_connect_ok : Bool
  run_found : Bool
  llm_transport_ok : Bool
  llm_parse_ok : Bool
  save_to_db : Bool
  db_update_ok : Bool

/-- Effect trace of `compare-run.py` `main` (lines 465-624), in source
order: load the predictions file (508-514), reject an empty prediction
list (516-519), check `DATABASE_URL` (524-527), connect (529), the run
lookup then the aggregate sub-queries of `extract_run_outcomes`
(533, 75-213), resolve the API key (537), the inference call (539,
297-322), write the markdown report and the raw JSON (554-571), the
optional guarded database update (575-598), and `conn.close()`
(line 600). Fatal failures call `sys.exit(1)` at the point of failure
with no further events. -/
def compare_main_trace (env : Env) (w : CompareWorld) : List Ev :=
  if w.preds_file_exists then
    if w.registration_predictions.isEmpty then [.loadPreds, .exitFatal]
    else
      match envStr env.database_url with
      | none => [.loadPreds, .exitFatal]
      | some _ =>
        if w.db_connect_ok then
          if w.run_found then
            [.loadPreds, .dbConnect, .runLookupQuery, .extractQueries] ++
              (match get_api_key env with
              | none => [.exitFatal]
              | some _ =>
                if w.llm_transport_ok then
                  if w.llm_parse_ok then
                    [.llmCall, .writeArtifact, .writeArtifact] ++
                      (if w.save_to_db then
                        if w.db_update_ok then [.dbWrite] else [.dbWrite, .warn]
                      else []) ++ [.dbClose]
                  else [.llmCall, .exitFatal]
                else [.llmCall, .exitFatal])
          else [.loadPreds, .dbConnect, .runLookupQuery, .exitFatal]
        else [.loadPreds, .dbConnect, .exitFatal]
  else [.exitFatal]

/-! ## Registration document assembler (`pre-register.py`, `main`, lines 440-458) -/

/-- The registration document as assembled in `main` (lines 440-458);
the timestamp and output path are invocation metadata and are not part
of the shape claims. -/
structure RegistrationDocument where
  schema_version : Nat
  model : String
  experiment_config : Json
  research_questions : List ResearchQuestion
  predictions : List Json

/-- Assembly of the registration document from the normalized inference
response: `"predictions": result.get("predictions", [])` (line 457) with
no validation of the prediction contents against the question list. -/
def assemble_registration (modelId : String) (expConfig : Json)
    (applicable : List ResearchQuestion) (parsed : Json) :
    Except NormError RegistrationDocument :=
  (normalize_response parsed).map (fun r =>
    { schema_version := 1
    , model := modelId
    , experiment_config := expConfig
    , research_questions := applicable
    , predictions := normalized_predictions r })

/-- The `question_id` field of a prediction object, `.null` when absent. -/
def qid_of (p : Json) : Json := p.getD "question_id" .null

/-! ## Prompt builders

`build_prediction_prompt` (`pre-register.py` lines 172-238) and
`build_comparison_prompt` (`compare-run.py` lines 217-267) are embedded
as pure string functions of their inputs. `json.dumps` is modelled by
`jsonDumps` (compact, default separators) and `jsonDumpsIndent`
(`indent=2`); `:.1f` float formatting is modelled by `fmt1` over the
exact rational quotient (binary-float rounding of the borderline halves
is abstracted as round-half-even on the exact value). -/

/-- String escaping of `json.dumps` for the characters occurring here. -/
def jsonEscape (s : String) : String :=
  s.foldl (fun acc c =>
    acc ++ (if c = '"' then "\\\"" else if c = '\\' then "\\\\"
            else if c = '\n' then "\\n" else String.singleton c)) ""

mutual

/-- Python `json.dumps(j)` with the default separators `", "` and `": "`. -/
def jsonDumps : Json → String
  | .null => "null"
  | .bool b => if b then "true" else "false"
  | .num n => toString n
  | .str s => "\"" ++ jsonEscape s ++ "\""
  | .arr l => "[" ++ jsonDumpsList l ++ "]"
  | .obj kvs => "\x7b" ++ jsonDumpsObj kvs ++ "\x7d"

def jsonDumpsList : List Json → String
  | [] => ""
  | [j] => jsonDumps j
  | j :: rest => jsonDumps j ++ ", " ++ jsonDumpsList rest

def jsonDumpsObj : List (String × Json) → String
  | [] => ""
  | [(k, v)] => "\"" ++ jsonEscape k ++ "\": " ++ jsonDumps v
  | (k, v) :: rest =>
      "\"" ++ jsonEscape k ++ "\": " ++ jsonDumps v ++ ", " ++ jsonDumpsObj rest

end

/-- Repeats the space character `n` times. -/
def spaces (n : Nat) : String := String.join (List.replicate n " ")

mutual

/-- Python `json.dumps(j, indent=2)` at nesting depth `ind` spaces. -/
def jsonDumpsIndent : Nat → Json → String
  | _, .null => "null"
  | _, .bool b => if b then "true" else "false"
  | _, .num n => toString n
  | _, .str s => "\"" ++ jsonEscape s ++ "\""
  | _, .arr [] => "[]"
  | ind, .arr (j :: rest) =>
      "[\n" ++ jsonDumpsIndentList (ind + 2) (j :: rest) ++ "\n" ++ spaces ind ++ "]"
  | _, .obj [] => "\x7b\x7d"
  | ind, .obj (kv :: rest) =>
      "\x7b\n" ++ jsonDumpsIndentObj (ind + 2) (kv :: rest) ++ "\n" ++ spaces ind ++ "\x7d"

def jsonDumpsIndentList : Nat → List Json → String
  | _, [] => ""
  | ind, [j] => spaces ind ++ jsonDumpsIndent ind j
  | ind, j :: rest =>
      spaces ind ++ jsonDumpsIndent ind j ++ ",\n" ++ jsonDumpsIndentList ind rest

def jsonDumpsIndentObj : Nat → List (String × Json) → String
  | _, [] => ""
  | ind, [(k, v)] => spaces ind ++ "\"" ++ jsonEscape k ++ "\": " ++ jsonDumpsIndent ind v
  | ind, (k, v) :: rest =>
      spaces ind ++ "\"" ++ jsonEscape k ++ "\": " ++ jsonDumpsIndent ind v ++ ",\n"
        ++ jsonDumpsIndentObj ind rest

end

/-- Round-half-even to an integer (the rounding of `:.1f` applied to the
exact value). -/
def roundHalfEven (x : Rat) : Int :=
  let f : Int := x.floor
  let frac : Rat := x - (f : Rat)
  if frac < 1 / 2 then f
  else if 1 / 2 < frac then f + 1
  else if f % 2 = 0 then f else f + 1

/-- Python `format(x, ".1f")` of the exact rational `x`. -/
def fmt1 (x : Rat) : String :=
  let t := roundHalfEven (10 * x)
  let a := t.natAbs
  (if t < 0 then "-" else "") ++ toString (a / 10) ++ "." ++ toString (a % 10)

/-- Python `config.get(sect, ...).get(key, default)` with object defaults. -/
def cfgGet (config : Json) (sect key : String) (d : Json) : Json :=
  (config.getD sect (.obj [])).getD key d

/-- The integer value of a configuration entry; non-numeric values (on
which the Python arithmetic would raise) are mapped to 0. -/
def jsonInt (j : Json) : Int :=
  match j with
  | .num n => n
  | _ => 0

/-- Python comma-space join of a JSON list rendered elementwise. -/
def joinComma (j : Json) : String :=
  match j with
  | .arr l => String.intercalate ", " (l.map Json.pyStr)
  | other => other.pyStr

/-- The `questions_block` loop (lines 187-189): one line per question,
numbered from 1, with the category in brackets before the text. -/
def questions_block (questions : List ResearchQuestion) : String :=
  String.join ((List.zip (List.range questions.length) questions).map
    (fun iq => "\n" ++ toString (iq.1 + 1) ++ ". [" ++ iq.2.category ++ "] "
      ++ iq.2.question ++ "\n"))

/-- Function `build_prediction_prompt` (`pre-register.py` lines 172-238). The
tick arithmetic for the two world-year figures follows lines 185 and
198; the zero-guard exists only for the first (the second would raise in
Python when `ticks_per_season = 0`, a crash input outside this model). -/
def build_prediction_prompt (config : Json) (agent_count tick_count : Int)
    (questions : List ResearchQuestion) : String :=
  let personality_mode := cfgGet config "agents" "personality_mode" (.str "random")
  let seed_knowledge := cfgGet config "agents" "seed_knowledge" (.arr [])
  let knowledge_level := cfgGet config "world" "knowledge_level" (.num 1)
  let starting_wallet := cfgGet config "economy" "starting_wallet" (.obj [])
  let hunger_rate := cfgGet config "economy" "hunger_rate" (.num 5)
  let ticks_per_season := jsonInt (cfgGet config "time" "ticks_per_season" (.num 90))
  let agent_lifespan := jsonInt (cfgGet config "population" "agent_lifespan_ticks" (.num 2500))
  let reproduction := (cfgGet config "population" "reproduction_enabled" (.bool true)).truthy
  let day_night := (cfgGet config "time" "day_night" (.bool true)).truthy
  let world_years : Rat :=
    if 0 < ticks_per_season then (tick_count : Rat) / ((ticks_per_season * 4 : Int) : Rat) else 0
  let lifespan_years : Rat := (agent_lifespan : Rat) / ((ticks_per_season * 4 : Int) : Rat)
  "You are being asked to predict the outcomes of a multi-agent LLM simulation BEFORE it runs. This is a pre-registration exercise -- your predictions will be compared against actual outcomes to assess how much agent behavior is predictable from LLM training priors versus emergent from persistent interaction.\n\n"
  ++ "## Simulation Parameters\n\n"
  ++ "- **Agent count:** " ++ toString agent_count ++ "\n"
  ++ "- **Total ticks:** " ++ toString tick_count ++ " (~" ++ fmt1 world_years ++ " world years)\n"
  ++ "- **Ticks per season:** " ++ toString ticks_per_season ++ " (4 seasons per year)\n"
  ++ "- **Agent lifespan:** " ++ toString agent_lifespan ++ " ticks (~" ++ fmt1 lifespan_years ++ " world years)\n"
  ++ "- **Personality distribution:** " ++ personality_mode.pyStr ++ " (8 dimensions: curiosity, cooperation, aggression, risk tolerance, industriousness, sociability, honesty, loyalty)\n"
  ++ "- **Knowledge level:** " ++ knowledge_level.pyStr ++ " (0=blank slate, 1=primitive, 2=ancient, 3=medieval)\n"
  ++ "- **Seed knowledge:** " ++ (if seed_knowledge.truthy then joinComma seed_knowledge else "none") ++ "\n"
  ++ "- **Starting resources per agent:** " ++ jsonDumps starting_wallet ++ "\n"
  ++ "- **Hunger rate:** " ++ hunger_rate.pyStr ++ " per tick\n"
  ++ "- **Reproduction:** " ++ (if reproduction then "enabled" else "disabled") ++ "\n"
  ++ "- **Day/night cycle:** " ++ (if day_night then "enabled" else "disabled") ++ "\n\n"
  ++ "## World Design\n\n"
  ++ "- Agents inhabit a graph of connected locations with varying resources\n"
  ++ "- Resources are finite and regenerate at fixed rates per location per tick\n"
  ++ "- All resource movements go through a double-entry ledger (conservation law enforced)\n"
  ++ "- Agents can only see their current location (fog of war)\n"
  ++ "- Agents can propose freeform actions beyond a base catalog (gather, build, trade, move, rest, etc.)\n"
  ++ "- Agents have tiered memory (immediate, short-term, long-term) with compression over time\n"
  ++ "- Agents have persistent social graphs with trust scores\n\n"
  ++ "## Population Scale Note\n\n"
  ++ "At " ++ toString agent_count ++ " agents, this is a "
  ++ (if agent_count < 10 then "band-level (very small group)"
      else if agent_count < 30 then "small village" else "village")
  ++ " scale simulation. Keep your predictions calibrated to what is plausible at this population size.\n\n"
  ++ "## Research Questions\n\n"
  ++ "For each question below, provide a specific, falsifiable prediction about what you expect to happen in this simulation. Be concrete -- reference tick ranges, percentages, specific behavioral patterns. Do NOT hedge with \"it depends\" -- commit to a prediction even if uncertain.\n\n"
  ++ questions_block questions ++ "\n\n"
  ++ "## Response Format\n\n"
  ++ "Respond with a JSON array. Each element must have exactly these fields:\n"
  ++ "- \"question_id\": the identifier string for the question\n"
  ++ "- \"prediction\": your specific prediction (2-4 sentences, concrete and falsifiable)\n"
  ++ "- \"confidence\": your confidence level (\"low\", \"medium\", \"high\")\n"
  ++ "- \"expected_tick_range\": approximate tick range when you expect this to become observable, as [start, end] or null if not applicable\n"
  ++ "- \"key_indicators\": list of 2-3 specific observable indicators that would confirm or refute your prediction\n\n"
  ++ "Respond ONLY with the JSON array, no other text."

/-- The per-prediction block of `build_comparison_prompt`
(`compare-run.py` lines 222-235). -/
def prediction_block (pred : Json) : String :=
  let qid := (pred.getD "question_id" (.str "unknown")).pyStr
  let prediction_text := (pred.getD "prediction" (.str "(no prediction)")).pyStr
  let confidence := (pred.getD "confidence" (.str "unknown")).pyStr
  let indicators := pred.getD "key_indicators" (.arr [])
  let tick_range := pred.getD "expected_tick_range" .null
  "\n### " ++ qid ++ "\n"
  ++ "**Prediction (" ++ confidence ++ " confidence):** " ++ prediction_text ++ "\n"
  ++ (if tick_range.truthy then
        "**Expected tick range:** "
          ++ (match tick_range with
              | .arr (a :: b :: _) => a.pyStr ++ "-" ++ b.pyStr
              | other => other.pyStr ++ "-" ++ other.pyStr) ++ "\n"
      else "")
  ++ (if indicators.truthy then "**Key indicators:** " ++ joinComma indicators ++ "\n" else "")

/-- Function `build_comparison_prompt` (`compare-run.py` lines 217-267), over the
prediction objects and the outcomes dict
(`json.dumps(outcomes, indent=2, default=str)`). -/
def build_comparison_prompt (predictions : List Json) (outcomes : Json) : String :=
  let outcomes_json := jsonDumpsIndent 0 outcomes
  let predictions_block := String.join (predictions.map prediction_block)
  "You are evaluating a pre-registered prediction set against actual simulation outcomes. Your job is to assess each prediction and classify it as CONFIRMED, PARTIALLY CONFIRMED, DIVERGENT, or INSUFFICIENT DATA.\n\n"
  ++ "## Pre-Registered Predictions\n"
  ++ predictions_block ++ "\n\n"
  ++ "## Actual Simulation Outcomes\n\n"
  ++ "```json\n" ++ outcomes_json ++ "\n```\n\n"
  ++ "## Instructions\n\n"
  ++ "For each prediction, provide:\n"
  ++ "1. **verdict**: One of \"confirmed\", \"partially_confirmed\", \"divergent\", \"insufficient_data\"\n"
  ++ "2. **evidence**: Specific data from the outcomes that supports your verdict (reference actual numbers)\n"
  ++ "3. **divergence_notes**: If divergent or partially confirmed, explain specifically HOW the outcome differed from prediction. This is the most important field -- divergences are the scientifically interesting findings.\n"
  ++ "4. **surprise_factor**: Rate 1-5 how surprising the outcome was relative to the prediction (1 = exactly as predicted, 5 = completely unexpected)\n\n"
  ++ "Also provide:\n"
  ++ "5. **overall_summary**: A 3-5 sentence summary of the most significant findings across all questions\n"
  ++ "6. **most_interesting_divergences**: List the top 3 most scientifically interesting divergences\n"
  ++ "7. **recapitulation_assessment**: Your assessment of how much agent behavior appears to be training-data recapitulation vs genuine emergent dynamics\n\n"
  ++ "Respond ONLY with a JSON object containing:\n"
  ++ "- \"comparisons\": array of objects with fields question_id, verdict, evidence, divergence_notes, surprise_factor\n"
  ++ "- \"overall_summary\": string\n"
  ++ "- \"most_interesting_divergences\": array of strings\n"
  ++ "- \"recapitulation_assessment\": string"

/-! ## Auxiliary definitions for the proofs -/

/-- Lookup in the tally dict (the value bound to key `v`, if any). -/
def akey (l : List (String × Nat)) (v : String) : Option Nat :=
  (l.find? (fun p => p.1 == v)).map Prod.snd

/-- A database holding one completed run and otherwise empty tables. -/
def emptyRunDb : Db :=
  { simulation_runs := [⟨"run-1", "baseline", "completed", some 5000⟩]
  , agents := [], events := [], discoveries := [], social_constructs := []
  , deception_records := [], world_snapshots := [], ledger := [] }

/-! ## Helper lemmas: the tally dict -/

theorem akey_cons (a : String) (m : Nat) (l : List (String × Nat)) (k : String) :
    akey ((a, m) :: l) k = if a = k then some m else akey l k := by
  by_cases h : a = k
  · subst h; simp [akey, List.find?_cons]
  · have hb : (a == k) = false := beq_eq_false_iff_ne.2 h
    simp [akey, List.find?_cons, hb, h]

theorem akey_bump (acc : List (String × Nat)) (v k : String) :
    akey (bump acc v) k =
      if k = v then some ((akey acc k).getD 0 + 1) else akey acc k := by
  induction acc with
  | nil =>
    simp only [bump, akey_cons]
    by_cases h : k = v
    · subst h; simp [akey]
    · simp [h, Ne.symm h, akey]
  | cons p rest ih =>
    obtain ⟨a, m⟩ := p
    by_cases hav : a = v
    · subst hav
      simp only [bump, if_pos rfl, akey_cons]
      by_cases hk : a = k
      · subst hk; simp [akey_cons]
      · have hk2 : ¬ k = a := fun e => hk e.symm
        simp [hk, hk2, akey_cons]
    · simp only [bump, if_neg hav, akey_cons]
      by_cases hk : a = k
      · subst hk
        have hkv : ¬ a = v := hav
        simp [hkv, akey_cons]
      · simp [hk, ih, akey_cons]

theorem keys_bump (acc : List (String × Nat)) (v : String) :
    (bump acc v).map Prod.fst =
      if v ∈ acc.map Prod.fst then acc.map Prod.fst
      else acc.map Prod.fst ++ [v] := by
  induction acc with
  | nil => simp [bump]
  | cons p rest ih =>
    obtain ⟨a, m⟩ := p
    by_cases hav : a = v
    · subst hav; simp [bump]
    · have hva : ¬ v = a := fun e => hav e.symm
      simp only [bump, if_neg hav, List.map_cons, ih, List.mem_cons, hva, false_or]
      by_cases hv : v ∈ rest.map Prod.fst <;> simp [hv]

theorem nodup_keys_bump (acc : List (String × Nat)) (v : String)
    (h : (acc.map Prod.fst).Nodup) : ((bump acc v).map Prod.fst).Nodup := by
  rw [keys_bump]
  by_cases hv : v ∈ acc.map Prod.fst
  · simpa [hv]
  · simp [hv, List.nodup_append, h]

theorem akey_foldl (ks : List String) :
    ∀ (acc : List (String × Nat)) (k : String),
      akey (ks.foldl bump acc) k =
        if k ∈ ks then some ((akey acc k).getD 0 + ks.count k)
        else akey acc k := by
  induction ks with
  | nil => intro acc k; simp
  | cons v ks ih =>
    intro acc k
    simp only [List.foldl_cons]
    rw [ih (bump acc v) k, akey_bump]
    by_cases hkv : k = v
    · subst hkv
      by_cases hk : k ∈ ks
      · simp [hk, List.count_cons]
        omega
      · simp [hk, List.count_cons, List.count_eq_zero.2 hk]
    · have : ¬ v = k := fun e => hkv e.symm
      simp [hkv, this, List.count_cons]

theorem nodup_keys_foldl (ks : List String) :
    ∀ (acc : List (String × Nat)), (acc.map Prod.fst).Nodup →
      ((ks.foldl bump acc).map Prod.fst).Nodup := by
  induction ks with
  | nil => intro acc h; simpa
  | cons v ks ih =>
    intro acc h
    exact ih (bump acc v) (nodup_keys_bump acc v h)

theorem mem_iff_akey :
    ∀ (l : List (String × Nat)), (l.map Prod.fst).Nodup →
      ∀ (v : String) (n : Nat), (v, n) ∈ l ↔ akey l v = some n := by
  intro l
  induction l with
  | nil => intro _ v n; simp [akey]
  | cons p rest ih =>
    intro hnd v n
    obtain ⟨a, m⟩ := p
    simp only [List.map_cons, List.nodup_cons] at hnd
    rw [akey_cons]
    by_cases hav : a = v
    · subst hav
      constructor
      · intro hmem
        rcases List.mem_cons.1 hmem with heq | hrest
        · simp at heq; simp [heq]
        · exact absurd (List.mem_map.2 ⟨(a, n), hrest, rfl⟩) hnd.1
      · intro heq
        simp at heq
        simp [heq]
    · constructor
      · intro hmem
        rcases List.mem_cons.1 hmem with heq | hrest
        · exact absurd (congrArg Prod.fst heq).symm hav
        · simp only [if_neg hav]
          exact (ih hnd.2 v n).1 hrest
      · intro heq
        simp only [if_neg hav] at heq
        exact List.mem_cons.2 (Or.inr ((ih hnd.2 v n).2 heq))

theorem verdict_counts_eq_foldl (cs : List Json) :
    verdict_counts cs = (cs.map get_verdict).foldl bump [] := by
  rw [verdict_counts, List.foldl_map]

theorem nodup_keys_verdict_counts (cs : List Json) :
    ((verdict_counts cs).map Prod.fst).Nodup := by
  rw [verdict_counts_eq_foldl]
  exact nodup_keys_foldl _ [] (by simp)

theorem mem_verdict_counts (cs : List Json) (v : String) (n : Nat) :
    (v, n) ∈ verdict_counts cs ↔
      (v ∈ cs.map get_verdict ∧ n = (cs.map get_verdict).count v) := by
  rw [mem_iff_akey _ (nodup_keys_verdict_counts cs), verdict_counts_eq_foldl,
    akey_foldl]
  by_cases hv : v ∈ cs.map get_verdict
  · simp [hv, akey, eq_comm]
  · simp [hv, akey]

/-! ## Helper lemmas: the Python string order -/

theorem charListLe_total : ∀ (as bs : List Char),
    charListLe as bs = true ∨ charListLe bs as = true := by
  intro as
  induction as with
  | nil => intro bs; left; rfl
  | cons a as ih =>
    intro bs
    cases bs with
    | nil => right; rfl
    | cons b bs =>
      by_cases hab : a = b
      · subst hab
        rcases ih bs with h | h
        · left; simpa [charListLe]
        · right; simpa [charListLe]
      · rcases lt_or_gt_of_ne hab with hlt | hgt
        · left; simp [charListLe, hab, hlt]
        · right
          have hba : ¬ b = a := fun e => hab e.symm
          simp [charListLe, hba, hgt]

theorem charListLe_trans : ∀ (as bs cs : List Char),
    charListLe as bs = true → charListLe bs cs = true → charListLe as cs = true := by
  intro as
  induction as with
  | nil => intro bs cs _ _; rfl
  | cons a as ih =>
    intro bs cs h₁ h₂
    cases bs with
    | nil => simp [charListLe] at h₁
    | cons b bs =>
      cases cs with
      | nil => simp [charListLe] at h₂
      | cons c cs =>
        by_cases hab : a = b <;> by_cases hbc : b = c
        · subst hab; subst hbc
          simp [charListLe] at h₁ h₂ ⊢
          exact ih _ _ h₁ h₂
        · subst hab
          simp [charListLe, hbc] at h₂
          have hac : ¬ a = c := fun e => hbc e
          simp [charListLe, hac, h₂]
        · subst hbc
          simp [charListLe, hab] at h₁
          have hac : ¬ a = b := hab
          simp [charListLe, hac, h₁]
        · simp [charListLe, hab] at h₁
          simp [charListLe, hbc] at h₂
          have hac : a < c := lt_trans h₁ h₂
          have hne : ¬ a = c := ne_of_lt hac
          simp [charListLe, hne, hac]

theorem verdict_rows_perm (cs : List Json) :
    List.Perm (verdict_rows cs) (verdict_counts cs) :=
  List.perm_insertionSort _ _

theorem verdict_rows_sorted_le (cs : List Json) :
    (verdict_rows cs).Pairwise (fun a b => strLe a.1 b.1 = true) := by
  haveI : IsTotal (String × Nat) (fun a b => strLe a.1 b.1 = true) :=
    ⟨fun a b => charListLe_total a.1.data b.1.data⟩
  haveI : IsTrans (String × Nat) (fun a b => strLe a.1 b.1 = true) :=
    ⟨fun _ _ _ h₁ h₂ => charListLe_trans _ _ _ h₁ h₂⟩
  exact List.sorted_insertionSort _ _

theorem verdict_rows_nodup_keys (cs : List Json) :
    ((verdict_rows cs).map Prod.fst).Nodup :=
  (((verdict_rows_perm cs).map Prod.fst).nodup_iff).2 (nodup_keys_verdict_counts cs)

/-! ## Claim theorems -/

/-- C1, counterexample: the claim says every parsed input outside the
three tolerated shapes fails with a fatal error and is never silently
wrapped into a one-element prediction sequence. The object
`{"a": 1}` has none of the three shapes (no `predictions` key, and its
values are not all objects), yet `query_llm` accepts it and wraps it
into the one-element prediction sequence `[{"a": 1}]`. -/
theorem normalize_response_wraps_nonobject_values :
    normalize_response (.obj [("a", .num 1)]) =
        .ok (.obj [("predictions", .arr [.obj [("a", .num 1)]])]) ∧
    normalized_predictions (.obj [("predictions", .arr [.obj [("a", .num 1)]])]) =
        [.obj [("a", .num 1)]] :=
  ⟨rfl, rfl⟩

/-- C1, amended: the normalizer accepts the three tolerated shapes as
claimed, but any other parsed object is silently wrapped into a
one-element prediction sequence rather than rejected; only a parsed
value that is neither a list nor an object is a fatal error, and that
error reports the Python type name rather than echoing the raw text
(the raw text is echoed only when the response fails JSON parsing,
a stage prior to this shape dispatch). -/
theorem normalize_response_shape_cases :
    (∀ l, normalize_response (.arr l) = .ok (.obj [("predictions", .arr l)])) ∧
    (∀ kvs, kvs.any (fun kv => kv.1 == "predictions") = true →
        normalize_response (.obj kvs) = .ok (.obj kvs)) ∧
    (∀ kvs, kvs.any (fun kv => kv.1 == "predictions") = false →
        kvs.all (fun kv => kv.2.isObj) = true →
        normalize_response (.obj kvs) =
          .ok (.obj [("predictions", .arr (kvs.map (fun kv => kv.2)))])) ∧
    (∀ kvs, kvs.any (fun kv => kv.1 == "predictions") = false →
        kvs.all (fun kv => kv.2.isObj) = false →
        normalize_response (.obj kvs) =
          .ok (.obj [("predictions", .arr [.obj kvs])])) ∧
    (∀ b, normalize_response (.bool b) = .error (.unexpectedStructure "bool")) ∧
    (∀ n, normalize_response (.num n) = .error (.unexpectedStructure "int")) ∧
    (∀ s, normalize_response (.str s) = .error (.unexpectedStructure "str")) ∧
    normalize_response .null = .error (.unexpectedStructure "NoneType") := by
  refine ⟨fun l => rfl, fun kvs h => ?_, fun kvs h1 h2 => ?_, fun kvs h1 h2 => ?_,
    fun b => rfl, fun n => rfl, fun s => rfl, rfl⟩
  all_goals simp [normalize_response, *]

/-- C1, witness: the wrapped-object shape is accepted unchanged. -/
theorem normalize_response_shape_cases_witness :
    normalize_response (.obj [("predictions", .arr [])]) =
      .ok (.obj [("predictions", .arr [])]) :=
  normalize_response_shape_cases.2.1 [("predictions", .arr [])] rfl

/-- C2, counterexample: at 8 agents the filter keeps 10 questions, not
the claimed 11, and the catalog has 5 questions with `min_agents = 10`,
not the claimed 4. -/
theorem applicable_questions_at_8_counts :
    (applicable_questions 8).length = 10 ∧
    ¬ (applicable_questions 8).length = 11 ∧
    ¬ (RESEARCH_QUESTIONS.filter (fun q => q.min_agents = 10)).length = 4 := by
  decide

/-- C2, amended: for an agent count of 8 the filter returns exactly the
catalog questions with `min_agents ≤ 8`, excluding every
`min_agents = 10` question; on the fixed 15-question catalog, of which 5
questions require at least 10 agents, this yields exactly 10 applicable
questions. -/
theorem applicable_questions_at_8_spec :
    (∀ q ∈ RESEARCH_QUESTIONS, q.min_agents ≤ 8 → q ∈ applicable_questions 8) ∧
    (∀ q ∈ applicable_questions 8,
        q ∈ RESEARCH_QUESTIONS ∧ q.min_agents ≤ 8 ∧ q.min_agents ≠ 10) ∧
    RESEARCH_QUESTIONS.length = 15 ∧
    (RESEARCH_QUESTIONS.filter (fun q => q.min_agents = 10)).length = 5 ∧
    (applicable_questions 8).length = 10 := by
  decide

/-- C2, witness: the first catalog question (population minimum 5) is
applicable at 8 agents. -/
theorem applicable_questions_at_8_spec_witness :
    RESEARCH_QUESTIONS.get ⟨0, by decide⟩ ∈ applicable_questions 8 :=
  applicable_questions_at_8_spec.1 _ (by decide) (by decide)

/-- C5: both prompt builders are deterministic pure functions — two
invocations on identical inputs (same configuration, agent count, tick
count and question sequence; same predictions and outcome snapshot)
produce byte-identical prompt text. -/
theorem prompt_builders_deterministic (c₁ c₂ : Json) (a₁ a₂ t₁ t₂ : Int)
    (qs₁ qs₂ : List ResearchQuestion) (ps₁ ps₂ : List Json) (o₁ o₂ : Json)
    (hc : c₁ = c₂) (ha : a₁ = a₂) (ht : t₁ = t₂) (hq : qs₁ = qs₂)
    (hp : ps₁ = ps₂) (ho : o₁ = o₂) :
    build_prediction_prompt c₁ a₁ t₁ qs₁ = build_prediction_prompt c₂ a₂ t₂ qs₂ ∧
    build_comparison_prompt ps₁ o₁ = build_comparison_prompt ps₂ o₂ := by
  subst hc; subst ha; subst ht; subst hq; subst hp; subst ho
  exact ⟨rfl, rfl⟩

/-- C5, witness: determinism at a concrete configuration and input. -/
theorem prompt_builders_deterministic_witness :
    build_prediction_prompt (.obj []) 8 100 RESEARCH_QUESTIONS =
        build_prediction_prompt (.obj []) 8 100 RESEARCH_QUESTIONS ∧
    build_comparison_prompt [.obj [("question_id", .str "leadership")]] (.obj []) =
        build_comparison_prompt [.obj [("question_id", .str "leadership")]] (.obj []) :=
  prompt_builders_deterministic _ _ _ _ _ _ _ _ _ _ _ _ rfl rfl rfl rfl rfl rfl

/-- C6: the discovery timeline renders exactly the first 30 discoveries
of the (tick-ordered) sequence; a sequence longer than 30 adds a
footnote naming the number omitted (for 45 discoveries, "15 more"); a
sequence of at most 30 renders in full with no footnote. -/
theorem discovery_timeline_truncation (ds : List DiscoveryOut) :
    timeline_rows ds = ds.take 30 ∧
    timeline_rows ds <+: ds ∧
    (ds.Pairwise (fun a b => a.tick ≤ b.tick) →
      (timeline_rows ds).Pairwise (fun a b => a.tick ≤ b.tick)) ∧
    (30 < ds.length →
      (timeline_rows ds).length = 30 ∧
      timeline_footnote ds =
        "\n*...and " ++ toString (ds.length - 30) ++ " more discoveries.*\n") ∧
    (ds.length ≤ 30 → timeline_rows ds = ds ∧ timeline_footnote ds = "") ∧
    (ds.length = 45 →
      (timeline_rows ds).length = 30 ∧
      timeline_footnote ds = "\n*...and 15 more discoveries.*\n") ∧
    (ds ≠ [] →
      discovery_timeline_section ds =
        "## Discovery Timeline\n\n| Tick | Knowledge | Method |\n|---|---|---|\n"
          ++ String.join ((timeline_rows ds).map discovery_row)
          ++ timeline_footnote ds ++ "\n") := by
  refine ⟨rfl, ⟨ds.drop 30, List.take_append_drop 30 ds⟩,
    fun h => h.sublist (List.take_sublist 30 ds), fun h => ⟨?_, ?_⟩,
    fun h => ⟨?_, ?_⟩, fun h => ⟨?_, ?_⟩, fun h => ?_⟩
  · simp [timeline_rows]; omega
  · simp [timeline_footnote, h]
  · simp [timeline_rows, List.take_of_length_le h]
  · simp [timeline_footnote]; omega
  · simp [timeline_rows, h]
  · simp only [timeline_footnote, h]
    decide
  · simp [discovery_timeline_section, h]

/-- C6, witness: a concrete 45-element discovery sequence renders 30
rows and the "15 more" footnote. -/
theorem discovery_timeline_truncation_witness :
    (timeline_rows ((List.range 45).map
        (fun i => ({ knowledge := "fire", tick := (i : Int), method := "experiment",
                     agent_id := none } : DiscoveryOut)))).length = 30 ∧
    timeline_footnote ((List.range 45).map
        (fun i => ({ knowledge := "fire", tick := (i : Int), method := "experiment",
                     agent_id := none } : DiscoveryOut))) =
      "\n*...and 15 more discoveries.*\n" :=
  (discovery_timeline_truncation _).2.2.2.2.2.1 (by rfl)

/-- C10: a registration document whose `predictions` list is empty (or
whose `predictions` key is absent, which loads as the same empty list)
aborts the comparison invocation immediately after loading — before the
datastore connection, before any extraction query, before the inference
call, and before any artifact is written. -/
theorem compare_empty_predictions_aborts_first (env : Env) (w : CompareWorld)
    (hfile : w.preds_file_exists = true)
    (hempty : w.registration_predictions = []) :
    compare_main_trace env w = [.loadPreds, .exitFatal] ∧
    Ev.dbConnect ∉ compare_main_trace env w ∧
    Ev.runLookupQuery ∉ compare_main_trace env w ∧
    Ev.extractQueries ∉ compare_main_trace env w ∧
    Ev.llmCall ∉ compare_main_trace env w ∧
    Ev.writeArtifact ∉ compare_main_trace env w := by
  have h : compare_main_trace env w = [.loadPreds, .exitFatal] := by
    simp [compare_main_trace, hfile, hempty]
  refine ⟨h, ?_, ?_, ?_, ?_, ?_⟩ <;> simp [h]

/-- C10, witness: the abort at a concrete environment and world. -/
theorem compare_empty_predictions_aborts_first_witness :
    compare_main_trace ⟨some "sk-key", none, some "postgres://db/emergence"⟩
        ⟨true, [], true, true, true, true, false, true⟩ =
      [.loadPreds, .exitFatal] :=
  (compare_empty_predictions_aborts_first _ _ rfl rfl).1

/-- C4, counterexample: with the datastore connection string present but
both inference credential variables absent, the comparison invocation
connects to the datastore and runs the full extraction before the
missing credential is noticed — the fatal configuration error is neither
at startup nor before every external call, contradicting the claim. -/
theorem compare_missing_credential_after_datastore_calls :
    compare_main_trace ⟨none, none, some "postgres://db/emergence"⟩
        ⟨true, [.obj [("question_id", .str "leadership")]], true, true, true, true,
          false, true⟩ =
      [.loadPreds, .dbConnect, .runLookupQuery, .extractQueries, .exitFatal] ∧
    Ev.dbConnect ∈ compare_main_trace ⟨none, none, some "postgres://db/emergence"⟩
        ⟨true, [.obj [("question_id", .str "leadership")]], true, true, true, true,
          false, true⟩ :=
  ⟨rfl, by decide⟩

/-- C4, amended: a missing inference credential in the registration
phase, and a missing connection string in the comparison phase, are
fatal at startup before any external call, as claimed; but in the
comparison phase a missing inference credential becomes fatal only after
the datastore connection and extraction queries, and in the registration
phase a missing connection string under `--save-to-db` is a non-fatal
warning issued after the inference call. -/
theorem credential_check_order_spec :
    (∀ (env : Env) (w : PreRegWorld), w.config_exists = true →
        get_api_key env = none →
        pre_register_trace env w = [.loadConfig, .exitFatal]) ∧
    (∀ (env : Env) (w : CompareWorld), w.preds_file_exists = true →
        w.registration_predictions.isEmpty = false →
        envStr env.database_url = none →
        compare_main_trace env w = [.loadPreds, .exitFatal]) ∧
    (∀ (env : Env) (w : CompareWorld) (d : String),
        w.preds_file_exists = true →
        w.registration_predictions.isEmpty = false →
        envStr env.database_url = some d →
        w.db_connect_ok = true → w.run_found = true →
        get_api_key env = none →
        compare_main_trace env w =
          [.loadPreds, .dbConnect, .runLookupQuery, .extractQueries, .exitFatal]) ∧
    (∀ (env : Env) (w : PreRegWorld) (k : String),
        w.config_exists = true → get_api_key env = some k →
        (applicable_questions w.agents).isEmpty = false →
        w.llm_transport_ok = true → w.llm_response_ok = true →
        w.save_to_db = true → envStr env.database_url = none →
        pre_register_trace env w = [.loadConfig, .llmCall, .writeArtifact, .warn]) := by
  refine ⟨?_, ?_, ?_, ?_⟩
  · intro env w h1 h2
    simp [pre_register_trace, h1, h2]
  · intro env w h1 h2 h3
    simp [compare_main_trace, h1, h2, h3]
  · intro env w d h1 h2 h3 h4 h5 h6
    simp [compare_main_trace, h1, h2, h3, h4, h5, h6]
  · intro env w k h1 h2 h3 h4 h5 h6 h7
    simp [pre_register_trace, h1, h2, h3, h4, h5, h6, h7]

/-- C4, witness: the registration phase rejects a missing credential
before any external call, at a concrete environment. -/
theorem credential_check_order_spec_witness :
    pre_register_trace ⟨none, some "", none⟩
        ⟨true, 8, true, true, false, true⟩ = [.loadConfig, .exitFatal] :=
  credential_check_order_spec.1 ⟨none, some "", none⟩
    ⟨true, 8, true, true, false, true⟩ rfl rfl

/-- C9, counterexample: when the run id is unknown the invocation exits
via the fatal path of the extractor with the datastore connection acquired
and never explicitly closed, contradicting the claim that every exit
path closes it. -/
theorem compare_error_path_leaves_connection_open :
    compare_main_trace ⟨some "sk-key", none, some "postgres://db/emergence"⟩
        ⟨true, [.obj [("question_id", .str "leadership")]], true, false, true, true,
          false, true⟩ =
      [.loadPreds, .dbConnect, .runLookupQuery, .exitFatal] ∧
    Ev.dbConnect ∈ compare_main_trace ⟨some "sk-key", none, some "postgres://db/emergence"⟩
        ⟨true, [.obj [("question_id", .str "leadership")]], true, false, true, true,
          false, true⟩ ∧
    Ev.dbClose ∉ compare_main_trace ⟨some "sk-key", none, some "postgres://db/emergence"⟩
        ⟨true, [.obj [("question_id", .str "leadership")]], true, false, true, true,
          false, true⟩ :=
  ⟨rfl, by decide, by decide⟩

/-- C9, amended: the datastore connection is explicitly closed exactly
when the invocation reaches the success path; every fatal exit after the
connection is acquired (run not found, missing inference credential,
inference transport failure, malformed inference response) terminates
without an explicit close. -/
theorem connection_close_spec (env : Env) (w : CompareWorld) :
    Ev.dbClose ∈ compare_main_trace env w ↔
      (w.preds_file_exists = true ∧ w.registration_predictions.isEmpty = false ∧
       (envStr env.database_url).isSome = true ∧ w.db_connect_ok = true ∧
       w.run_found = true ∧ (get_api_key env).isSome = true ∧
       w.llm_transport_ok = true ∧ w.llm_parse_ok = true) := by
  cases hf : w.preds_file_exists <;>
  cases he : w.registration_predictions.isEmpty <;>
  rcases henv : envStr env.database_url with _ | d <;>
  cases hc : w.db_connect_ok <;>
  cases hr : w.run_found <;>
  rcases hkey : get_api_key env with _ | k <;>
  cases ht : w.llm_transport_ok <;>
  cases hp : w.llm_parse_ok <;>
  cases hs : w.save_to_db <;>
  cases hu : w.db_update_ok <;>
  simp [compare_main_trace, hf, he, henv, hc, hr, hkey, ht, hp, hs, hu]

/-- C9, witness: on a concrete successful invocation the connection is
closed. -/
theorem connection_close_spec_witness :
    Ev.dbClose ∈ compare_main_trace ⟨some "sk-key", none, some "postgres://db/emergence"⟩
        ⟨true, [.obj [("question_id", .str "leadership")]], true, true, true, true,
          false, true⟩ :=
  (connection_close_spec _ _).2 (by decide)

/-- C7: the verdict tally groups the comparisons by their literal
verdict string and counts each group (a pair `(v, n)` appears in the
rendered rows exactly when verdict `v` occurs in the comparisons and `n`
is its number of occurrences), the rows are strictly sorted by verdict
name in Python string order, and the 5-comparison scenario renders
exactly `confirmed:2, divergent:2, partially_confirmed:1` in that
order. -/
theorem verdict_tally_spec (cs : List Json) :
    (verdict_rows cs).Pairwise (fun a b => strLe a.1 b.1 = true ∧ a.1 ≠ b.1) ∧
    (∀ (v : String) (n : Nat), (v, n) ∈ verdict_rows cs ↔
        (v ∈ cs.map get_verdict ∧ n = (cs.map get_verdict).count v)) ∧
    verdict_rows
        [ .obj [("verdict", .str "confirmed")]
        , .obj [("verdict", .str "confirmed")]
        , .obj [("verdict", .str "divergent")]
        , .obj [("verdict", .str "partially_confirmed")]
        , .obj [("verdict", .str "divergent")] ] =
      [("confirmed", 2), ("divergent", 2), ("partially_confirmed", 1)] := by
  refine ⟨?_, ?_, by decide⟩
  · exact (verdict_rows_sorted_le cs).and
      (List.pairwise_map.1 (verdict_rows_nodup_keys cs))
  · intro v n
    rw [(verdict_rows_perm cs).mem_iff, mem_verdict_counts]

/-- C7, witness: the tally of the concrete scenario contains
`("confirmed", 2)`. -/
theorem verdict_tally_spec_witness :
    ("confirmed", 2) ∈ verdict_rows
        [ .obj [("verdict", .str "confirmed")]
        , .obj [("verdict", .str "confirmed")]
        , .obj [("verdict", .str "divergent")]
        , .obj [("verdict", .str "partially_confirmed")]
        , .obj [("verdict", .str "divergent")] ] :=
  ((verdict_tally_spec _).2.1 "confirmed" 2).2 (by decide)

/-- C8, counterexample: the assembler accepts a response whose only
prediction carries a `question_id` that matches no applicable question,
and stores it unchanged — the claimed invariant fails. -/
theorem assemble_registration_accepts_foreign_question_id :
    assemble_registration "deepseek/deepseek-chat-v3-0324" (.obj [])
        (applicable_questions 8)
        (.arr [.obj [("question_id", .str "not_a_catalog_question")]]) =
      .ok { schema_version := 1
          , model := "deepseek/deepseek-chat-v3-0324"
          , experiment_config := .obj []
          , research_questions := applicable_questions 8
          , predictions := [.obj [("question_id", .str "not_a_catalog_question")]] } ∧
    qid_of (.obj [("question_id", .str "not_a_catalog_question")]) =
      .str "not_a_catalog_question" ∧
    ((applicable_questions 8).map (fun q => q.id)).contains
        "not_a_catalog_question" = false :=
  ⟨rfl, rfl, by decide⟩

/-- C8, amended: the assembler copies the normalized prediction sequence
into the document without validating any `question_id` against the
applicable-question list; acceptance and the stored predictions are
independent of that list, so the claimed invariant holds only when the
raw response happens to use applicable ids. -/
theorem assemble_registration_passthrough (modelId : String) (cfg : Json)
    (qs qs' : List ResearchQuestion) (parsed : Json) :
    (∀ doc, assemble_registration modelId cfg qs parsed = .ok doc →
        doc.research_questions = qs ∧ doc.schema_version = 1 ∧
        ∃ r, normalize_response parsed = .ok r ∧
          doc.predictions = normalized_predictions r) ∧
    ((∃ doc, assemble_registration modelId cfg qs parsed = .ok doc) ↔
      (∃ doc', assemble_registration modelId cfg qs' parsed = .ok doc')) ∧
    (∀ doc doc', assemble_registration modelId cfg qs parsed = .ok doc →
        assemble_registration modelId cfg qs' parsed = .ok doc' →
        doc.predictions = doc'.predictions) := by
  cases hn : normalize_response parsed with
  | ok r =>
    refine ⟨fun doc hdoc => ?_, ?_, fun doc doc' h1 h2 => ?_⟩
    · have hd :
          ({ schema_version := 1
           , model := modelId
           , experiment_config := cfg
           , research_questions := qs
           , predictions := normalized_predictions r } : RegistrationDocument) = doc := by
        simpa [assemble_registration, hn, Except.map] using hdoc
      exact hd ▸ ⟨rfl, rfl, r, rfl, rfl⟩
    · constructor <;> intro _
      · exact ⟨{ schema_version := 1
               , model := modelId
               , experiment_config := cfg
               , research_questions := qs'
               , predictions := normalized_predictions r },
          by simp [assemble_registration, hn, Except.map]⟩
      · exact ⟨{ schema_version := 1
               , model := modelId
               , experiment_config := cfg
               , research_questions := qs
               , predictions := normalized_predictions r },
          by simp [assemble_registration, hn, Except.map]⟩
    · have hd1 :
          ({ schema_version := 1
           , model := modelId
           , experiment_config := cfg
           , research_questions := qs
           , predictions := normalized_predictions r } : RegistrationDocument) = doc := by
        simpa [assemble_registration, hn, Except.map] using h1
      have hd2 :
          ({ schema_version := 1
           , model := modelId
           , experiment_config := cfg
           , research_questions := qs'
           , predictions := normalized_predictions r } : RegistrationDocument) = doc' := by
        simpa [assemble_registration, hn, Except.map] using h2
      rw [← hd1, ← hd2]
  | error e =>
    refine ⟨fun doc hdoc => ?_, ?_, fun doc doc' h1 h2 => ?_⟩
    · simp [assemble_registration, hn, Except.map] at hdoc
    · constructor <;> rintro ⟨doc, hdoc⟩ <;>
        simp [assemble_registration, hn, Except.map] at hdoc
    · simp [assemble_registration, hn, Except.map] at h1

/-- C8, witness: the pass-through at a concrete accepted response. -/
theorem assemble_registration_passthrough_witness :
    ({ schema_version := 1, model := "m", experiment_config := Json.obj []
     , research_questions := RESEARCH_QUESTIONS
     , predictions := [Json.obj []] } : RegistrationDocument).research_questions =
        RESEARCH_QUESTIONS ∧
    ({ schema_version := 1, model := "m", experiment_config := Json.obj []
     , research_questions := RESEARCH_QUESTIONS
     , predictions := [Json.obj []] } : RegistrationDocument).schema_version = 1 ∧
    ∃ r, normalize_response (.arr [.obj []]) = .ok r ∧
      ({ schema_version := 1, model := "m", experiment_config := Json.obj []
       , research_questions := RESEARCH_QUESTIONS
       , predictions := [Json.obj []] } : RegistrationDocument).predictions =
        normalized_predictions r :=
  (assemble_registration_passthrough "m" (.obj []) RESEARCH_QUESTIONS []
      (.arr [.obj []])).1 _ rfl

/-- C3, counterexample: on a database holding the run row but otherwise
empty tables, the extractor produces every topic sub-object present and
empty — except the final world-resource reading, whose key is omitted
(`final_world_state := none` models the absent dict key), contradicting
the claim that it too is present and empty. -/
theorem extract_empty_tables_final_world_state_absent :
    extract_run_outcomes emptyRunDb "run-1" =
      .ok { run := ⟨"run-1", "baseline", "completed", some 5000⟩
          , population := ⟨0, 0, 0, 0, 0, none, none⟩
          , death_causes := []
          , trade := ⟨0, 0, none, none⟩
          , discoveries := []
          , social_constructs := []
          , deception := ⟨0, 0, 0⟩
          , final_world_state := none
          , conflict := ⟨0, 0, 0⟩
          , ledger_summary := []
          , event_distribution := []
          , tick_range := ⟨none, none⟩ } := rfl

/-- C3, amended: for every database in which the run lookup succeeds and
all other tables are empty, extraction succeeds and yields a snapshot in
which every topic sub-object is present and empty with all counts zero
and optional aggregates absent (so every numeric aggregate present is
non-negative and no histogram bucket exists), except the final
world-resource reading, which is omitted rather than present-and-empty
when no world snapshot row exists. -/
theorem extract_empty_tables_spec (runs : List RunRow) (rid : String) (run : RunRow)
    (h : runs.find? (fun r => r.id == rid) = some run) :
    extract_run_outcomes ⟨runs, [], [], [], [], [], [], []⟩ rid =
      .ok { run := ⟨run.id, run.name, run.status, run.max_ticks⟩
          , population := ⟨0, 0, 0, 0, 0, none, none⟩
          , death_causes := []
          , trade := ⟨0, 0, none, none⟩
          , discoveries := []
          , social_constructs := []
          , deception := ⟨0, 0, 0⟩
          , final_world_state := none
          , conflict := ⟨0, 0, 0⟩
          , ledger_summary := []
          , event_distribution := []
          , tick_range := ⟨none, none⟩ } := by
  simp [extract_run_outcomes, h, sqlAvg, group_counts, sort_count_desc]

/-- C3, witness: the empty-tables extraction at a second concrete run
row. -/
theorem extract_empty_tables_spec_witness :
    extract_run_outcomes
        ⟨[⟨"run-2", "trial", "running", none⟩], [], [], [], [], [], [], []⟩
        "run-2" =
      .ok { run := ⟨"run-2", "trial", "running", none⟩
          , population := ⟨0, 0, 0, 0, 0, none, none⟩
          , death_causes := []
          , trade := ⟨0, 0, none, none⟩
          , discoveries := []
          , social_constructs := []
          , deception := ⟨0, 0, 0⟩
          , final_world_state := none
          , conflict := ⟨0, 0, 0⟩
          , ledger_summary := []
          , event_distribution := []
          , tick_range := ⟨none, none⟩ } :=
  extract_empty_tables_spec _ "run-2" ⟨"run-2", "trial", "running", none⟩ rfl

end Emergence
